import Mathlib

/-!
Shallow embedding of the dashboard repository's two algorithmic cores:

* the rule-based status-classification engine
  (`src/ui/utils/alert_rules.py`: `AlertSystem.analyze_server_status`,
  `AlertSystem._determine_server_status`, `AlertSystem.update_rule`), and
* the completeness / gap-detection engine
  (`src/app/preds_crud.py`: `detect_missing_data`,
  `calculate_data_completeness`; `src/app/api/endpoints.py`:
  `get_data_completeness`).

Modelling conventions:
* Python/NumPy float64 values are modelled exactly by `ℚ`; every operation
  the embedded code performs on them (comparison, sum, division by a count)
  is arithmetic that `ℚ` models exactly.
* `pandas.Series.mean()` of an empty selection is `NaN`; we model a mean as
  `Option ℚ` with `none` standing for `NaN`.
* Python's `int(x)` truncates toward zero: `pyInt`.
* Python's `round(x, 2)` rounds half to even at two decimals: `round2`.
* A `pandas.DataFrame` is a list of named, equal-length columns (`Window`);
  `df.empty` is true when either axis has length 0.
* The two `np.random.uniform` draws inside `analyze_server_status` are
  modelled as explicit oracle arguments (`rnd_cpu_ready`, `rnd_disk`): the
  source draws one value per row, the model receives those values as lists.
* The human-readable `message` string of an `Alert` (an f-string rendering
  of description, value and thresholds) and the `metrics_summary` entry of
  the result (per-metric mean/max/min/std, a pure rendering of the window
  that no claim mentions; `std` needs square roots, outside `ℚ`) are not
  carried in the model.
-/

/-- Python `int()` on a rational: truncation toward zero. -/
def pyInt (q : ℚ) : ℤ := if 0 ≤ q then ⌊q⌋ else ⌈q⌉

/-- `pandas.Series.mean()`: `none` models the `NaN` returned on an empty
selection. -/
def pmean (s : List ℚ) : Option ℚ :=
  if s.isEmpty then none else some (s.sum / (s.length : ℚ))

/-- `ServerStatus` enum from `alert_rules.py`. -/
inductive ServerStatus where
  | overloaded
  | underloaded
  | normal
  | unknown
deriving DecidableEq, Repr

/-- `AlertSeverity` enum from `alert_rules.py`. -/
inductive AlertSeverity where
  | critical
  | warning
  | info
deriving DecidableEq, Repr

/-- The `thresholds` dict of a rule: a map that may hold a `low` and/or a
`high` key. -/
structure Thresholds where
  low : Option ℚ
  high : Option ℚ
deriving DecidableEq, Repr

/-- `AlertRule` dataclass from `alert_rules.py`. -/
structure AlertRule where
  name : String
  metric : String
  condition : String
  thresholds : Thresholds
  severity : AlertSeverity
  description : String
  time_percentage : ℚ
deriving DecidableEq, Repr

/-- `Alert` dataclass (the `message` f-string, a deterministic rendering of
the other fields, is not carried). `value` is `Option ℚ` because the source
stores a pandas mean, which is `NaN` on an empty selection; `timestamp` is
`Option ℚ` because it is read from the window's `timestamp` column. -/
structure Alert where
  rule : AlertRule
  value : Option ℚ
  timestamp : Option ℚ
  server : String
deriving DecidableEq, Repr

/-- The dict produced by `Alert.to_dict` (minus the `message` rendering). -/
structure AlertDict where
  server : String
  ruleName : String
  value : Option ℚ
  threshold : Thresholds
  severity : AlertSeverity
  timestamp : Option ℚ
deriving DecidableEq, Repr

/-- `Alert.to_dict` from `alert_rules.py`. -/
def Alert.to_dict (a : Alert) : AlertDict :=
  ⟨a.server, a.rule.name, a.value, a.rule.thresholds, a.rule.severity, a.timestamp⟩

/-- A `pandas.DataFrame`: a list of named columns (each a series of float
values; the `timestamp` column is carried as rational minutes). -/
structure Window where
  cols : List (String × List ℚ)
deriving DecidableEq, Repr

/-- The column names (`df.columns`). -/
def Window.names (w : Window) : List String := w.cols.map Prod.fst

/-- Number of rows: the common length of the columns. -/
def Window.nrows (w : Window) : ℕ := ((w.cols.head?).map (fun c => c.2.length)).getD 0

/-- `df.empty`: true when any axis has length 0. -/
def Window.isEmpty (w : Window) : Bool := w.cols.isEmpty || w.nrows == 0

/-- Column lookup (`df[name]`), `none` when the column is absent. -/
def Window.getCol (w : Window) (name : String) : Option (List ℚ) :=
  (w.cols.find? (fun c => decide (c.1 = name))).map Prod.snd

/-- `df[name] = vals`: replaces the column in place when present, otherwise
appends it at the end (pandas column assignment). -/
def Window.setCol (w : Window) (name : String) (vals : List ℚ) : Window :=
  if w.cols.any (fun c => decide (c.1 = name)) then
    ⟨w.cols.map (fun c => if c.1 = name then (name, vals) else c)⟩
  else ⟨w.cols ++ [(name, vals)]⟩

/-- All rules are well-formed: every column has `nrows` entries. -/
def Window.wf (w : Window) : Prop := ∀ c ∈ w.cols, c.2.length = w.nrows

/-- The enrichment step at the top of `analyze_server_status`
(lines 170-181): derives `network_usage_percent` from `network_in_mbps`
(capacity 1000 Mbps), then synthesizes random `cpu_ready_summation`
(uniform on [0,15)) and `disk_latency` (uniform on [5,30)) columns when
absent.  The random draws are passed in as oracles.  The source performs
these assignments on the caller's DataFrame, mutating it in place; the
model returns the mutated window. -/
def add_network_metric (w : Window) : Window :=
  if "network_in_mbps" ∈ w.names then
    w.setCol "network_usage_percent"
      (((w.getCol "network_in_mbps").getD []).map (fun v => v / 1000 * 100))
  else w

/-- Second enrichment statement (lines 177-178): synthesize a random
`cpu_ready_summation` column when absent. -/
def add_cpu_ready (w : Window) (rnd : List ℚ) : Window :=
  if "cpu_ready_summation" ∈ w.names then w
  else w.setCol "cpu_ready_summation" rnd

/-- Third enrichment statement (lines 180-181): synthesize a random
`disk_latency` column when absent. -/
def add_disk_latency (w : Window) (rnd : List ℚ) : Window :=
  if "disk_latency" ∈ w.names then w
  else w.setCol "disk_latency" rnd

/-- The full enrichment: the three statements in source order. -/
def enrich (w : Window) (rnd_cpu_ready rnd_disk : List ℚ) : Window :=
  add_disk_latency (add_cpu_ready (add_network_metric w) rnd_cpu_ready) rnd_disk

/-- The body of the rule loop of `analyze_server_status` (lines 186-237):
evaluates one rule against the (enriched) window.  `none` both when the
rule's metric is not a column (the `continue` on line 188) and when the
rule does not fire.  A rule whose `thresholds` dict lacks the accessed key
would raise `KeyError` in the source; that path is also mapped to `none`
here and is exercised by no theorem below (each supplies the key). -/
def evalRule (w : Window) (lastTs : Option ℚ) (server_name : String)
    (rule : AlertRule) : Option Alert :=
  match w.getCol rule.metric with
  | none => none
  | some metric_data =>
    let total_intervals : ℕ := metric_data.length
    let required_intervals : ℤ := pyInt ((total_intervals : ℚ) * rule.time_percentage)
    if rule.condition = "gt" then
      match rule.thresholds.high with
      | none => none
      | some hi =>
        let exceeding := metric_data.filter (fun v => decide (hi < v))
        if required_intervals ≤ (exceeding.length : ℤ) then
          some ⟨rule, pmean exceeding, lastTs, server_name⟩
        else none
    else if rule.condition = "lt" then
      match rule.thresholds.low with
      | none => none
      | some lo =>
        let below := metric_data.filter (fun v => decide (v < lo))
        if required_intervals ≤ (below.length : ℤ) then
          some ⟨rule, pmean below, lastTs, server_name⟩
        else none
    else if rule.condition = "range" then
      match rule.thresholds.low, rule.thresholds.high with
      | some lo, some hi =>
        let in_range_count := metric_data.countP (fun v => decide (lo ≤ v ∧ v ≤ hi))
        if in_range_count = total_intervals then
          some ⟨rule, pmean metric_data, lastTs, server_name⟩
        else none
      | _, _ => none
    else none

/-- The designated overload-signal metrics
(`_determine_server_status`, line 259). -/
def overload_metrics : List String := ["cpu_usage", "memory_usage", "cpu_ready_summation"]

/-- The designated underload-signal metrics
(`_determine_server_status`, line 267). -/
def underload_metrics : List String := ["cpu_usage", "memory_usage", "network_usage_percent"]

/-- `AlertSystem._determine_server_status` (lines 252-273). -/
def determine_server_status (alerts : List Alert) : ServerStatus :=
  if alerts.isEmpty then ServerStatus.normal
  else
    let overload_alerts := alerts.filter (fun a => decide (a.rule.severity = AlertSeverity.critical))
    let overload_count :=
      (overload_alerts.filter (fun a => decide (a.rule.metric ∈ overload_metrics))).length
    if 1 ≤ overload_count then ServerStatus.overloaded
    else
      let underload_alerts := alerts.filter (fun a => decide (a.rule.severity = AlertSeverity.warning))
      let underload_count :=
        (underload_alerts.filter (fun a => decide (a.rule.metric ∈ underload_metrics))).length
      if 3 ≤ underload_count then ServerStatus.underloaded
      else ServerStatus.normal

/-- The `AlertSystem` object state: the configured rules and the mutable
`alerts_history` list. -/
structure AlertSystem where
  rules : List AlertRule
  alerts_history : List AlertDict
deriving DecidableEq, Repr

/-- The `{status, alerts}` part of the dict returned by
`analyze_server_status` (its third entry, `metrics_summary`, is a pure
rendering of the window not modelled here). -/
structure AnalyzeResult where
  status : ServerStatus
  alerts : List Alert
deriving DecidableEq, Repr

/-- `AlertSystem.analyze_server_status` (lines 165-250).  Besides the
returned dict, the source call has two side effects which the model makes
explicit in its codomain: it appends the fired alerts to
`self.alerts_history`, and it mutates the caller's DataFrame through the
enrichment assignments, so the resulting `AlertSystem` state and `Window`
are also returned. -/
def analyze_server_status (sys : AlertSystem) (server_data : Window)
    (server_name : String) (rnd_cpu_ready rnd_disk : List ℚ) :
    AnalyzeResult × AlertSystem × Window :=
  if server_data.isEmpty then (⟨ServerStatus.unknown, []⟩, sys, server_data)
  else
    let w := enrich server_data rnd_cpu_ready rnd_disk
    let lastTs := (w.getCol "timestamp").bind List.getLast?
    let alerts := sys.rules.filterMap (evalRule w lastTs server_name)
    let status := determine_server_status alerts
    (⟨status, alerts⟩,
     ⟨sys.rules, sys.alerts_history ++ alerts.map Alert.to_dict⟩,
     w)

/-- `AlertSystem._get_default_rules` (lines 63-163): the canonical rule
catalogue. -/
def default_rules : List AlertRule :=
  [⟨"high_cpu_usage", "cpu_usage", "gt", ⟨none, some 85⟩,
    AlertSeverity.critical, "Среднее использование CPU >85%", 0.2⟩,
   ⟨"high_memory_usage", "memory_usage", "gt", ⟨none, some 80⟩,
    AlertSeverity.critical, "Среднее использование памяти >80%", 0.2⟩,
   ⟨"cpu_ready_time", "cpu_ready_summation", "gt", ⟨none, some 10⟩,
    AlertSeverity.critical, "Сумма времени ожидания CPU >10% (в топ-20% пиковых интервалов)", 0.2⟩,
   ⟨"low_cpu_usage", "cpu_usage", "lt", ⟨some 15, none⟩,
    AlertSeverity.warning, "Среднее использование CPU <15%", 0.8⟩,
   ⟨"low_memory_usage", "memory_usage", "lt", ⟨some 25, none⟩,
    AlertSeverity.warning, "Среднее использование памяти <25%", 0.8⟩,
   ⟨"low_network_usage", "network_usage_percent", "lt", ⟨some 5, none⟩,
    AlertSeverity.warning, "Среднее использование сети <5% от ёмкости", 0.8⟩,
   ⟨"normal_cpu_range", "cpu_usage", "range", ⟨some 15, some 85⟩,
    AlertSeverity.info, "Нормальный диапазон CPU: 15-85%", 1.0⟩,
   ⟨"normal_memory_range", "memory_usage", "range", ⟨some 25, some 85⟩,
    AlertSeverity.info, "Нормальный диапазон памяти: 25-85%", 1.0⟩,
   ⟨"normal_network_range", "network_usage_percent", "range", ⟨some 6, some 85⟩,
    AlertSeverity.info, "Нормальный диапазон сети: 6-85%", 1.0⟩,
   ⟨"high_disk_latency", "disk_latency", "gt", ⟨none, some 25⟩,
    AlertSeverity.critical, "Высокая задержка диска >25ms", 0.2⟩]

/-- One keyword argument of `AlertSystem.update_rule(rule_name, **kwargs)`.
`setattr` can target any dataclass attribute; a key that is not an
attribute fails the `hasattr` guard and is skipped (`unknownKey`). -/
inductive RuleFieldUpdate where
  | setName (v : String)
  | setMetric (v : String)
  | setCondition (v : String)
  | setThresholds (v : Thresholds)
  | setSeverity (v : AlertSeverity)
  | setDescription (v : String)
  | setTimePercentage (v : ℚ)
  | unknownKey (k : String)
deriving DecidableEq, Repr

/-- The inner loop of `update_rule`: one `setattr` (guarded by `hasattr`). -/
def applyField (r : AlertRule) : RuleFieldUpdate → AlertRule
  | RuleFieldUpdate.setName v => ⟨v, r.metric, r.condition, r.thresholds, r.severity, r.description, r.time_percentage⟩
  | RuleFieldUpdate.setMetric v => ⟨r.name, v, r.condition, r.thresholds, r.severity, r.description, r.time_percentage⟩
  | RuleFieldUpdate.setCondition v => ⟨r.name, r.metric, v, r.thresholds, r.severity, r.description, r.time_percentage⟩
  | RuleFieldUpdate.setThresholds v => ⟨r.name, r.metric, r.condition, v, r.severity, r.description, r.time_percentage⟩
  | RuleFieldUpdate.setSeverity v => ⟨r.name, r.metric, r.condition, r.thresholds, v, r.description, r.time_percentage⟩
  | RuleFieldUpdate.setDescription v => ⟨r.name, r.metric, r.condition, r.thresholds, r.severity, v, r.time_percentage⟩
  | RuleFieldUpdate.setTimePercentage v => ⟨r.name, r.metric, r.condition, r.thresholds, r.severity, r.description, v⟩
  | RuleFieldUpdate.unknownKey _ => r

/-- `AlertSystem.update_rule` (lines 295-302): walks the rule list, applies
the keyword updates to the first rule whose name matches, then `break`s.
When no name matches the loop falls through: no error is raised and the
list is returned unchanged. -/
def update_rule (rules : List AlertRule) (rule_name : String)
    (kwargs : List RuleFieldUpdate) : List AlertRule :=
  match rules with
  | [] => []
  | r :: rest =>
    if r.name = rule_name then (kwargs.foldl applyField r) :: rest
    else r :: update_rule rest rule_name kwargs

/-!
## Completeness / gap-detection engine

`src/app/preds_crud.py` (`detect_missing_data`,
`calculate_data_completeness`) and the API endpoint
`src/app/api/endpoints.py` (`get_data_completeness`).

Timestamps are modelled as rational minutes since an arbitrary epoch; a
`timedelta` difference in minutes (`.total_seconds() / 60`) is then plain
subtraction, exact in `ℚ`.  The fact table queried via SQLAlchemy is
modelled as a list of rows.
-/

/-- One row of the `ServerMetricsFact` table. -/
structure FactRow where
  vm : String
  metric : String
  timestamp : ℚ
  value : ℚ
deriving DecidableEq, Repr

/-- Modelled from the spec: `get_historical_metrics` is called by
`detect_missing_data` but is defined nowhere under the sources; per the
spec the metric store "supplies an ordered sequence of (timestamp, value)
samples for a given (entity, metric) and time range".  Rows of the fact
table matching the entity and metric, restricted to the inclusive range,
ordered by timestamp. -/
def get_historical_metrics (db : List FactRow) (vm metric : String)
    (start_date end_date : ℚ) : List FactRow :=
  List.insertionSort (fun a b => a.timestamp ≤ b.timestamp)
    (db.filter (fun r =>
      decide (r.vm = vm ∧ r.metric = metric ∧
              start_date ≤ r.timestamp ∧ r.timestamp ≤ end_date)))

/-- One entry of the list returned by `detect_missing_data`
(lines 401-407). -/
structure GapInterval where
  gap_start : ℚ
  gap_end : ℚ
  gap_duration_minutes : ℚ
  expected_interval_minutes : ℤ
  missing_points : ℤ
deriving DecidableEq, Repr

/-- The pair-walking core of `DBCRUD.detect_missing_data` (lines 388-409),
over the timestamps of the records returned by the metric store (the fetch
on line 386 is factored out into the caller). -/
def detect_missing_data (ts : List ℚ) (expected_interval_minutes : ℤ) :
    List GapInterval :=
  if ts.length < 2 then []
  else
    (List.range (ts.length - 1)).filterMap (fun i =>
      let current_time := ts.getD i 0
      let next_time := ts.getD (i + 1) 0
      let actual_interval := next_time - current_time
      if (expected_interval_minutes : ℚ) * (3 / 2) < actual_interval then
        some ⟨current_time, next_time, actual_interval, expected_interval_minutes,
              pyInt (actual_interval / (expected_interval_minutes : ℚ)) - 1⟩
      else none)

/-- `DBCRUD.detect_missing_data` including the record fetch. -/
def detect_missing_data_db (db : List FactRow) (vm metric : String)
    (start_date end_date : ℚ) (expected_interval_minutes : ℤ) : List GapInterval :=
  detect_missing_data
    ((get_historical_metrics db vm metric start_date end_date).map FactRow.timestamp)
    expected_interval_minutes

/-- Round half to even to an integer (Python's `round` tie-breaking). -/
def roundHalfEven (q : ℚ) : ℤ :=
  if q - ⌊q⌋ < 1 / 2 then ⌊q⌋
  else if 1 / 2 < q - ⌊q⌋ then ⌊q⌋ + 1
  else if ⌊q⌋ % 2 = 0 then ⌊q⌋ else ⌊q⌋ + 1

/-- Python `round(x, 2)`. -/
def round2 (q : ℚ) : ℚ := (roundHalfEven (q * 100) : ℚ) / 100

/-- The dict returned by `calculate_data_completeness` (lines 446-453). -/
structure CompletenessReport where
  expected_points : ℤ
  actual_points : ℕ
  completeness_percentage : ℚ
  missing_points : ℤ
  missing_intervals : List GapInterval
  missing_intervals_count : ℕ
deriving DecidableEq, Repr

/-- `DBCRUD.calculate_data_completeness` (lines 411-453).  The SQLAlchemy
count query (lines 435-440) becomes a filter over the fact-table rows. -/
def calculate_data_completeness (db : List FactRow) (vm metric : String)
    (start_date end_date : ℚ) (expected_interval_minutes : ℤ) :
    CompletenessReport :=
  let total_minutes : ℚ := end_date - start_date
  let expected_points : ℤ := pyInt (total_minutes / (expected_interval_minutes : ℚ)) + 1
  let actual_points : ℕ :=
    (db.filter (fun r =>
      decide (r.vm = vm ∧ r.metric = metric ∧
              start_date ≤ r.timestamp ∧ r.timestamp ≤ end_date))).length
  let completeness_percentage : ℚ :=
    if 0 < expected_points then (actual_points : ℚ) / (expected_points : ℚ) * 100 else 0
  let missing_intervals :=
    detect_missing_data_db db vm metric start_date end_date expected_interval_minutes
  ⟨expected_points, actual_points, round2 completeness_percentage,
   expected_points - (actual_points : ℤ), missing_intervals, missing_intervals.length⟩

/-- Outcome of an HTTP endpoint call: a response body or an HTTP error. -/
inductive ApiResult (α : Type) where
  | ok (value : α)
  | httpError (statusCode : ℕ) (detail : String)
deriving DecidableEq, Repr

/-- `get_data_completeness` from `src/app/api/endpoints.py` (lines 130-166).
FastAPI first validates the query parameter
(`Query(30, ge=1, le=1440)`) and rejects an out-of-range interval with a
422 validation error before the handler body runs; the handler then
rejects `start_date > end_date` with HTTP 400 and otherwise returns the
CRUD result. -/
def get_data_completeness (db : List FactRow) (vm metric : String)
    (start_date end_date : ℚ) (expected_interval_minutes : ℤ) :
    ApiResult CompletenessReport :=
  if expected_interval_minutes < 1 ∨ 1440 < expected_interval_minutes then
    ApiResult.httpError 422 "validation error"
  else if end_date < start_date then
    ApiResult.httpError 400 "start_date must be before end_date"
  else
    ApiResult.ok (calculate_data_completeness db vm metric start_date end_date
      expected_interval_minutes)

/-!
## Spec-side reference definitions
-/

/-- Error kind of the spec's `UpdateRule` contract. -/
inductive RuleError where
  | ruleNotFound
deriving DecidableEq, Repr

/-- The spec's partial-update record: exactly the mutable fields
`thresholds`, `timeFraction`, `severity`. -/
structure RulePatch where
  thresholds : Option Thresholds
  time_percentage : Option ℚ
  severity : Option AlertSeverity
deriving DecidableEq, Repr

/-- Modelled from the spec: "UpdateRule(name, fieldUpdates:
partial{thresholds?, timeFraction?, severity?}) → fails with RuleNotFound
if name absent; updates apply only the supplied fields, leaving others
untouched".  Stated only for comparison against the source's
`update_rule`. -/
def UpdateRuleSpec (rules : List AlertRule) (name : String) (patch : RulePatch) :
    Except RuleError (List AlertRule) :=
  if rules.any (fun r => decide (r.name = name)) then
    Except.ok (rules.map (fun r =>
      if r.name = name then
        ⟨r.name, r.metric, r.condition, patch.thresholds.getD r.thresholds,
         patch.severity.getD r.severity, r.description,
         patch.time_percentage.getD r.time_percentage⟩
      else r))
  else Except.error RuleError.ruleNotFound

/-!
## Theorems
-/

/-- C3, counterexample.  The claim asserts that updating a rule name absent
from the rule set fails with `RuleNotFound`.  On the source's
`update_rule`, calling with the absent name `"no_such_rule"` completes
without any error and returns the rule set unchanged (the loop simply
falls through); the spec-side `UpdateRuleSpec` would have failed with
`RuleNotFound` on the same input. -/
theorem c3_counterexample :
    update_rule default_rules "no_such_rule"
        [RuleFieldUpdate.setSeverity AlertSeverity.warning] = default_rules
    ∧ UpdateRuleSpec default_rules "no_such_rule"
        ⟨none, none, some AlertSeverity.warning⟩ = Except.error RuleError.ruleNotFound := by
  constructor <;> rfl

/-- C3, amended: for a name present in the rule set, `update_rule` applies
the supplied keyword fields to the first rule carrying that name and
leaves every other rule, and every non-supplied field, unchanged; but for
an absent name it does not fail with `RuleNotFound` — it silently leaves
the whole rule set unchanged. -/
theorem c3_update_rule_amended :
    (∀ (rules : List AlertRule) (name : String) (kwargs : List RuleFieldUpdate),
      (∀ r ∈ rules, r.name ≠ name) → update_rule rules name kwargs = rules)
    ∧ (∀ (l1 l2 : List AlertRule) (r : AlertRule) (name : String)
        (kwargs : List RuleFieldUpdate),
      (∀ r' ∈ l1, r'.name ≠ name) → r.name = name →
      update_rule (l1 ++ r :: l2) name kwargs = l1 ++ (kwargs.foldl applyField r) :: l2)
    ∧ (∀ (r : AlertRule) (t : Thresholds),
      applyField r (RuleFieldUpdate.setThresholds t) =
        ⟨r.name, r.metric, r.condition, t, r.severity, r.description,
         r.time_percentage⟩) := by
  refine ⟨?_, ?_, ?_⟩
  · intro rules name kwargs h
    induction rules with
    | nil => rfl
    | cons r rest ih =>
      rw [update_rule, if_neg (h r (by simp)), ih (fun r' hr' => h r' (by simp [hr']))]
  · intro l1 l2 r name kwargs h hr
    induction l1 with
    | nil => simp [update_rule, hr]
    | cons a rest ih =>
      rw [List.cons_append, update_rule, if_neg (h a (by simp)),
        ih (fun r' hr' => h r' (by simp [hr']))]
      simp
  · intro r t
    rfl

/-- C3, witness for the amended theorem: `"zzz"` names no default rule and
updating it is a no-op. -/
theorem c3_witness :
    (∀ r ∈ default_rules, r.name ≠ "zzz") ∧
    update_rule default_rules "zzz" [RuleFieldUpdate.setSeverity AlertSeverity.info]
      = default_rules :=
  ⟨by decide, c3_update_rule_amended.1 default_rules "zzz"
    [RuleFieldUpdate.setSeverity AlertSeverity.info] (by decide)⟩

/-- C7: when the range end precedes the range start, the completeness
endpoint never returns a report; with a valid expected interval (the
FastAPI bound `1 ≤ interval ≤ 1440`) it fails with the HTTP 400
invalid-range error, for any database contents, entity and metric. -/
theorem c7_invalid_range (db : List FactRow) (vm metric : String) (s e : ℚ)
    (itv : ℤ) (h : e < s) :
    (∀ r, get_data_completeness db vm metric s e itv ≠ ApiResult.ok r)
    ∧ (1 ≤ itv → itv ≤ 1440 →
        get_data_completeness db vm metric s e itv =
          ApiResult.httpError 400 "start_date must be before end_date") := by
  constructor
  · intro r
    unfold get_data_completeness
    by_cases hv : itv < 1 ∨ 1440 < itv
    · simp [hv]
    · simp [hv, h]
  · intro h1 h2
    unfold get_data_completeness
    rw [if_neg (by omega), if_pos h]

/-- C7, witness: the endpoint at `start = 1, end = 0, interval = 30`
returns the HTTP 400 invalid-range error. -/
theorem c7_witness :
    ((0 : ℚ) < 1) ∧
    get_data_completeness [] "vm1" "cpu_usage" 1 0 30 =
      ApiResult.httpError 400 "start_date must be before end_date" :=
  ⟨by norm_num,
   (c7_invalid_range [] "vm1" "cpu_usage" 1 0 30 (by norm_num)).2
     (by norm_num) (by norm_num)⟩

/-- `int()` agrees with the floor on nonnegative arguments. -/
theorem pyInt_eq_floor {q : ℚ} (h : 0 ≤ q) : pyInt q = ⌊q⌋ := if_pos h

/-- Under the gap condition the quotient of duration by interval has floor
at least 1. -/
theorem gap_floor_one {e : ℤ} {d : ℚ} (he : 0 < e)
    (hd : (e : ℚ) * (3 / 2) < d) : 1 ≤ ⌊d / (e : ℚ)⌋ := by
  have he' : (0 : ℚ) < (e : ℚ) := by exact_mod_cast he
  rw [Int.le_floor]
  rw [show ((1 : ℤ) : ℚ) = 1 by norm_num, le_div_iff₀ he']
  nlinarith

/-- C8: for every sample-timestamp sequence and positive expected interval,
gap detection returns nothing when there are fewer than two samples;
otherwise its output contains exactly one gap for each consecutive pair
whose difference strictly exceeds `expectedInterval * 1.5` (equality is
not a gap), carrying the two timestamps, their difference in minutes, and
`floor(duration / expectedInterval) - 1` missing points — a value that is
always the clamped `max (floor - 1) 0` because it is never negative. -/
theorem c8_detect_gaps (ts : List ℚ) (e : ℤ) (he : 0 < e) :
    (ts.length < 2 → detect_missing_data ts e = [])
    ∧ (∀ g, g ∈ detect_missing_data ts e ↔
        ∃ i, i + 1 < ts.length ∧
          (e : ℚ) * (3 / 2) < ts.getD (i + 1) 0 - ts.getD i 0 ∧
          g = ⟨ts.getD i 0, ts.getD (i + 1) 0, ts.getD (i + 1) 0 - ts.getD i 0, e,
               ⌊(ts.getD (i + 1) 0 - ts.getD i 0) / (e : ℚ)⌋ - 1⟩)
    ∧ (∀ g ∈ detect_missing_data ts e,
        g.missing_points = max (⌊g.gap_duration_minutes / (e : ℚ)⌋ - 1) 0
        ∧ 0 ≤ g.missing_points) := by
  have he' : (0 : ℚ) < (e : ℚ) := by exact_mod_cast he
  have key : ∀ g, g ∈ detect_missing_data ts e ↔
      ∃ i, i + 1 < ts.length ∧
        (e : ℚ) * (3 / 2) < ts.getD (i + 1) 0 - ts.getD i 0 ∧
        g = ⟨ts.getD i 0, ts.getD (i + 1) 0, ts.getD (i + 1) 0 - ts.getD i 0, e,
             ⌊(ts.getD (i + 1) 0 - ts.getD i 0) / (e : ℚ)⌋ - 1⟩ := by
    intro g
    unfold detect_missing_data
    by_cases hlen : ts.length < 2
    · rw [if_pos hlen]
      simp only [List.not_mem_nil, false_iff]
      rintro ⟨i, hi, -, -⟩
      omega
    · rw [if_neg hlen]
      rw [List.mem_filterMap]
      constructor
      · rintro ⟨i, hi, hf⟩
        rw [List.mem_range] at hi
        have hi' : i + 1 < ts.length := by omega
        refine ⟨i, hi', ?_⟩
        by_cases hc : (e : ℚ) * (3 / 2) < ts.getD (i + 1) 0 - ts.getD i 0
        · rw [if_pos hc] at hf
          have hq : 0 ≤ (ts.getD (i + 1) 0 - ts.getD i 0) / (e : ℚ) := by
            apply div_nonneg _ he'.le
            nlinarith
          rw [pyInt_eq_floor hq] at hf
          exact ⟨hc, (Option.some.injEq _ _ ▸ hf).symm⟩
        · rw [if_neg hc] at hf
          exact absurd hf (by simp)
      · rintro ⟨i, hi, hc, hg⟩
        refine ⟨i, List.mem_range.mpr (by omega), ?_⟩
        rw [if_pos hc]
        have hq : 0 ≤ (ts.getD (i + 1) 0 - ts.getD i 0) / (e : ℚ) := by
          apply div_nonneg _ he'.le
          nlinarith
        rw [pyInt_eq_floor hq, hg]
  refine ⟨fun hlen => by unfold detect_missing_data; rw [if_pos hlen], key, ?_⟩
  intro g hg
  rcases (key g).mp hg with ⟨i, hi, hc, hgeq⟩
  subst hgeq
  have h1 : 1 ≤ ⌊(ts.getD (i + 1) 0 - ts.getD i 0) / (e : ℚ)⌋ := gap_floor_one he hc
  constructor
  · simp only
    omega
  · simp only
    omega

/-- C8, witness: one pair of samples 180 minutes apart at a 30-minute
expected interval is a gap with 5 estimated missing points; a pair exactly
at the tolerance bound (45 = 30 * 1.5) is not a gap. -/
theorem c8_witness :
    ((0 : ℤ) < 30)
    ∧ (⟨0, 180, 180, 30, 5⟩ : GapInterval) ∈ detect_missing_data [0, 180] 30
    ∧ detect_missing_data [0, 45] 30 = [] := by
  refine ⟨by norm_num, ?_, ?_⟩
  · exact ((c8_detect_gaps [0, 180] 30 (by norm_num)).2.1 _).mpr
      ⟨0, by norm_num, by norm_num, by norm_num [List.getD]⟩
  · have h := (c8_detect_gaps [0, 45] 30 (by norm_num)).2.1
    rcases hmem : detect_missing_data [0, 45] 30 with _ | ⟨g, rest⟩
    · rfl
    · exfalso
      have := (h g).mp (by rw [hmem]; exact List.mem_cons_self g rest)
      rcases this with ⟨i, hi, hc, -⟩
      have hlen : ([0, 45] : List ℚ).length = 2 := rfl
      rw [hlen] at hi
      have hi0 : i = 0 := by omega
      subst hi0
      norm_num [List.getD] at hc

/-- Unfolding of `evalRule` in the `gt` branch. -/
theorem evalRule_gt (w : Window) (ts : Option ℚ) (sv : String) (r : AlertRule)
    (s : List ℚ) (hi : ℚ) (hcol : w.getCol r.metric = some s)
    (hcond : r.condition = "gt") (hhi : r.thresholds.high = some hi) :
    evalRule w ts sv r =
      if pyInt ((s.length : ℚ) * r.time_percentage)
          ≤ ((s.filter (fun v => decide (hi < v))).length : ℤ) then
        some ⟨r, pmean (s.filter (fun v => decide (hi < v))), ts, sv⟩
      else none := by
  simp only [evalRule, hcol]
  rw [hcond, if_pos rfl, hhi]

/-- Unfolding of `evalRule` in the `lt` branch. -/
theorem evalRule_lt (w : Window) (ts : Option ℚ) (sv : String) (r : AlertRule)
    (s : List ℚ) (lo : ℚ) (hcol : w.getCol r.metric = some s)
    (hcond : r.condition = "lt") (hlo : r.thresholds.low = some lo) :
    evalRule w ts sv r =
      if pyInt ((s.length : ℚ) * r.time_percentage)
          ≤ ((s.filter (fun v => decide (v < lo))).length : ℤ) then
        some ⟨r, pmean (s.filter (fun v => decide (v < lo))), ts, sv⟩
      else none := by
  simp only [evalRule, hcol]
  rw [hcond, if_neg (by decide), if_pos rfl, hlo]

/-- Unfolding of `evalRule` in the `range` branch. -/
theorem evalRule_range (w : Window) (ts : Option ℚ) (sv : String) (r : AlertRule)
    (s : List ℚ) (lo hi : ℚ) (hcol : w.getCol r.metric = some s)
    (hcond : r.condition = "range") (hlo : r.thresholds.low = some lo)
    (hhi : r.thresholds.high = some hi) :
    evalRule w ts sv r =
      if s.countP (fun v => decide (lo ≤ v ∧ v ≤ hi)) = s.length then
        some ⟨r, pmean s, ts, sv⟩
      else none := by
  simp only [evalRule, hcol]
  rw [hcond, if_neg (by decide), if_neg (by decide), if_pos rfl, hlo, hhi]

/-- C4: a `range` rule over a present, non-empty series fires exactly when
every sample lies inside the inclusive `[low, high]` band — the configured
`time_percentage` plays no role (it is left fully unconstrained here) —
and the fired alert's value is the mean of the whole series. -/
theorem c4_range_rule (w : Window) (ts : Option ℚ) (sv : String) (r : AlertRule)
    (s : List ℚ) (lo hi : ℚ)
    (hcol : w.getCol r.metric = some s) (hcond : r.condition = "range")
    (hlo : r.thresholds.low = some lo) (hhi : r.thresholds.high = some hi)
    (hne : s ≠ []) :
    ((evalRule w ts sv r).isSome ↔ ∀ v ∈ s, lo ≤ v ∧ v ≤ hi)
    ∧ ∀ a, evalRule w ts sv r = some a →
        a = ⟨r, some (s.sum / (s.length : ℚ)), ts, sv⟩ := by
  have hb := evalRule_range w ts sv r s lo hi hcol hcond hlo hhi
  have hmean : pmean s = some (s.sum / (s.length : ℚ)) := by
    unfold pmean
    rw [if_neg (by simpa using hne)]
  constructor
  · rw [hb]
    by_cases hc : s.countP (fun v => decide (lo ≤ v ∧ v ≤ hi)) = s.length
    · rw [if_pos hc]
      simp only [Option.isSome_some, true_iff]
      intro v hv
      exact of_decide_eq_true (List.countP_eq_length.mp hc v hv)
    · rw [if_neg hc]
      simp only [Option.isSome_none, Bool.false_eq_true, false_iff]
      intro hall
      exact hc (List.countP_eq_length.mpr (fun v hv => decide_eq_true (hall v hv)))
  · intro a ha
    rw [hb] at ha
    by_cases hc : s.countP (fun v => decide (lo ≤ v ∧ v ≤ hi)) = s.length
    · rw [if_pos hc, Option.some.injEq] at ha
      rw [← ha, hmean]
    · rw [if_neg hc] at ha
      exact absurd ha (by simp)

/-- C4, witness: over a window whose `cpu_usage` column is `[50, 20, 84]`,
the default `normal_cpu_range` rule (`range`, low 15, high 85) fires with
value the series mean 154/3. -/
theorem c4_witness :
    (evalRule ⟨[("cpu_usage", [50, 20, 84])]⟩ (some 0) "srv"
        ⟨"normal_cpu_range", "cpu_usage", "range", ⟨some 15, some 85⟩,
         AlertSeverity.info, "Нормальный диапазон CPU: 15-85%", 1.0⟩).isSome
    ∧ ∀ a, evalRule ⟨[("cpu_usage", [50, 20, 84])]⟩ (some 0) "srv"
        ⟨"normal_cpu_range", "cpu_usage", "range", ⟨some 15, some 85⟩,
         AlertSeverity.info, "Нормальный диапазон CPU: 15-85%", 1.0⟩ = some a →
        a = ⟨⟨"normal_cpu_range", "cpu_usage", "range", ⟨some 15, some 85⟩,
              AlertSeverity.info, "Нормальный диапазон CPU: 15-85%", 1.0⟩,
             some (154 / 3), some 0, "srv"⟩ := by
  have h := c4_range_rule ⟨[("cpu_usage", [50, 20, 84])]⟩ (some 0) "srv"
    ⟨"normal_cpu_range", "cpu_usage", "range", ⟨some 15, some 85⟩,
     AlertSeverity.info, "Нормальный диапазон CPU: 15-85%", 1.0⟩
    [50, 20, 84] 15 85 rfl rfl rfl rfl (by decide)
  refine ⟨h.1.mpr (by decide), ?_⟩
  intro a ha
  have ha' := h.2 a ha
  rw [ha']
  norm_num

/-- C5: a `gt` (resp. `lt`) rule over a present series fires exactly when
the number of samples strictly above `thresholds.high` (resp. strictly
below `thresholds.low`) is at least `floor(total * time_percentage)` —
so a count equal to the required number fires and a count one below it
does not — and the fired alert's value is the mean of the satisfying
samples. -/
theorem c5_threshold_rules :
    (∀ (w : Window) (ts : Option ℚ) (sv : String) (r : AlertRule)
      (s : List ℚ) (hi : ℚ),
      w.getCol r.metric = some s → r.condition = "gt" →
      r.thresholds.high = some hi → 0 ≤ r.time_percentage →
      (((evalRule w ts sv r).isSome ↔
          ⌊(s.length : ℚ) * r.time_percentage⌋
            ≤ ((s.filter (fun v => decide (hi < v))).length : ℤ))
        ∧ ∀ a, evalRule w ts sv r = some a →
            a.value = pmean (s.filter (fun v => decide (hi < v)))))
    ∧ (∀ (w : Window) (ts : Option ℚ) (sv : String) (r : AlertRule)
      (s : List ℚ) (lo : ℚ),
      w.getCol r.metric = some s → r.condition = "lt" →
      r.thresholds.low = some lo → 0 ≤ r.time_percentage →
      (((evalRule w ts sv r).isSome ↔
          ⌊(s.length : ℚ) * r.time_percentage⌋
            ≤ ((s.filter (fun v => decide (v < lo))).length : ℤ))
        ∧ ∀ a, evalRule w ts sv r = some a →
            a.value = pmean (s.filter (fun v => decide (v < lo))))) := by
  constructor
  · intro w ts sv r s hi hcol hcond hhi htp
    have hfl : pyInt ((s.length : ℚ) * r.time_percentage)
        = ⌊(s.length : ℚ) * r.time_percentage⌋ :=
      pyInt_eq_floor (mul_nonneg (Nat.cast_nonneg _) htp)
    rw [evalRule_gt w ts sv r s hi hcol hcond hhi, hfl]
    by_cases hc : ⌊(s.length : ℚ) * r.time_percentage⌋
        ≤ ((s.filter (fun v => decide (hi < v))).length : ℤ)
    · rw [if_pos hc]
      exact ⟨by simpa using hc, fun a ha => by
        rw [Option.some.injEq] at ha
        rw [← ha]⟩
    · rw [if_neg hc]
      exact ⟨by simpa using hc, fun a ha => absurd ha (by simp)⟩
  · intro w ts sv r s lo hcol hcond hlo htp
    have hfl : pyInt ((s.length : ℚ) * r.time_percentage)
        = ⌊(s.length : ℚ) * r.time_percentage⌋ :=
      pyInt_eq_floor (mul_nonneg (Nat.cast_nonneg _) htp)
    rw [evalRule_lt w ts sv r s lo hcol hcond hlo, hfl]
    by_cases hc : ⌊(s.length : ℚ) * r.time_percentage⌋
        ≤ ((s.filter (fun v => decide (v < lo))).length : ℤ)
    · rw [if_pos hc]
      exact ⟨by simpa using hc, fun a ha => by
        rw [Option.some.injEq] at ha
        rw [← ha]⟩
    · rw [if_neg hc]
      exact ⟨by simpa using hc, fun a ha => absurd ha (by simp)⟩

/-- C5, witness: the spec's own scenario — ten `cpu_usage` samples, three
of them 90 and the rest 50, against the default `high_cpu_usage` rule
(`gt`, high 85, timeFraction 0.2, required = floor(10 * 0.2) = 2): the
rule fires and the alert value is the mean 90 of the three satisfying
samples. -/
theorem c5_witness :
    ((0 : ℚ) ≤ 0.2)
    ∧ (evalRule ⟨[("cpu_usage", [90, 90, 90, 50, 50, 50, 50, 50, 50, 50])]⟩
        (some 0) "srv"
        ⟨"high_cpu_usage", "cpu_usage", "gt", ⟨none, some 85⟩,
         AlertSeverity.critical, "Среднее использование CPU >85%", 0.2⟩).isSome
    ∧ ∀ a, evalRule ⟨[("cpu_usage", [90, 90, 90, 50, 50, 50, 50, 50, 50, 50])]⟩
        (some 0) "srv"
        ⟨"high_cpu_usage", "cpu_usage", "gt", ⟨none, some 85⟩,
         AlertSeverity.critical, "Среднее использование CPU >85%", 0.2⟩ = some a →
        a.value = some 90 := by
  have h := c5_threshold_rules.1
    ⟨[("cpu_usage", [90, 90, 90, 50, 50, 50, 50, 50, 50, 50])]⟩ (some 0) "srv"
    ⟨"high_cpu_usage", "cpu_usage", "gt", ⟨none, some 85⟩,
     AlertSeverity.critical, "Среднее использование CPU >85%", 0.2⟩
    [90, 90, 90, 50, 50, 50, 50, 50, 50, 50] 85 rfl rfl rfl (by norm_num)
  refine ⟨by norm_num, h.1.mpr (by norm_num [List.filter]), ?_⟩
  intro a ha
  rw [h.2 a ha]
  norm_num [pmean, List.filter]

/-- C10: when `floor(total * time_percentage)` computes to 0 (a window so
short that `total * timeFraction < 1`), a `gt` (resp. `lt`) rule over a
present, non-empty series fires unconditionally; if additionally no
sample satisfies the condition, the alert's value is the mean of an empty
selection — `none`, modelling pandas' `NaN`. -/
theorem c10_zero_required_fires :
    (∀ (w : Window) (ts : Option ℚ) (sv : String) (r : AlertRule)
      (s : List ℚ) (hi : ℚ),
      w.getCol r.metric = some s → r.condition = "gt" →
      r.thresholds.high = some hi → s ≠ [] →
      pyInt ((s.length : ℚ) * r.time_percentage) = 0 →
      ((evalRule w ts sv r).isSome
        ∧ ((∀ v ∈ s, ¬ hi < v) → evalRule w ts sv r = some ⟨r, none, ts, sv⟩)))
    ∧ (∀ (w : Window) (ts : Option ℚ) (sv : String) (r : AlertRule)
      (s : List ℚ) (lo : ℚ),
      w.getCol r.metric = some s → r.condition = "lt" →
      r.thresholds.low = some lo → s ≠ [] →
      pyInt ((s.length : ℚ) * r.time_percentage) = 0 →
      ((evalRule w ts sv r).isSome
        ∧ ((∀ v ∈ s, ¬ v < lo) → evalRule w ts sv r = some ⟨r, none, ts, sv⟩))) := by
  constructor
  · intro w ts sv r s hi hcol hcond hhi _ hreq
    have hb := evalRule_gt w ts sv r s hi hcol hcond hhi
    rw [hreq] at hb
    rw [hb, if_pos (Int.ofNat_nonneg _)]
    refine ⟨rfl, fun hnone => ?_⟩
    have hfe : s.filter (fun v => decide (hi < v)) = [] :=
      List.filter_eq_nil_iff.mpr (fun v hv => by simpa using hnone v hv)
    rw [hfe]
    rfl
  · intro w ts sv r s lo hcol hcond hlo _ hreq
    have hb := evalRule_lt w ts sv r s lo hcol hcond hlo
    rw [hreq] at hb
    rw [hb, if_pos (Int.ofNat_nonneg _)]
    refine ⟨rfl, fun hnone => ?_⟩
    have hfe : s.filter (fun v => decide (v < lo)) = [] :=
      List.filter_eq_nil_iff.mpr (fun v hv => by simpa using hnone v hv)
    rw [hfe]
    rfl

/-- C10, witness: a single-sample window (`total = 1`, required =
`int(1 * 0.2) = 0`) makes the default `high_cpu_usage` rule fire on a
sample of 50 (≤ 85, so zero satisfying samples) with value `none`
(pandas `NaN`). -/
theorem c10_witness :
    (pyInt ((1 : ℚ) * 0.2) = 0)
    ∧ evalRule ⟨[("cpu_usage", [50])]⟩ (some 0) "srv"
        ⟨"high_cpu_usage", "cpu_usage", "gt", ⟨none, some 85⟩,
         AlertSeverity.critical, "Среднее использование CPU >85%", 0.2⟩
      = some ⟨⟨"high_cpu_usage", "cpu_usage", "gt", ⟨none, some 85⟩,
              AlertSeverity.critical, "Среднее использование CPU >85%", 0.2⟩,
             none, some 0, "srv"⟩ := by
  have h := (c10_zero_required_fires.1 ⟨[("cpu_usage", [50])]⟩ (some 0) "srv"
    ⟨"high_cpu_usage", "cpu_usage", "gt", ⟨none, some 85⟩,
     AlertSeverity.critical, "Среднее использование CPU >85%", 0.2⟩
    [50] 85 rfl rfl rfl (by decide) (by norm_num [pyInt])).2 (by decide)
  exact ⟨by norm_num [pyInt], h⟩
/-- Characterization of `_determine_server_status` over the whole alert
set. -/
theorem determine_server_status_spec (alerts : List Alert) :
    (determine_server_status alerts = ServerStatus.overloaded ↔
      ∃ a ∈ alerts, a.rule.severity = AlertSeverity.critical
        ∧ a.rule.metric ∈ overload_metrics)
    ∧ (determine_server_status alerts = ServerStatus.underloaded ↔
      (¬ ∃ a ∈ alerts, a.rule.severity = AlertSeverity.critical
        ∧ a.rule.metric ∈ overload_metrics)
      ∧ 3 ≤ (alerts.filter (fun a =>
          decide (a.rule.severity = AlertSeverity.warning
            ∧ a.rule.metric ∈ underload_metrics))).length)
    ∧ (determine_server_status alerts = ServerStatus.normal ↔
      (¬ ∃ a ∈ alerts, a.rule.severity = AlertSeverity.critical
        ∧ a.rule.metric ∈ overload_metrics)
      ∧ (alerts.filter (fun a =>
          decide (a.rule.severity = AlertSeverity.warning
            ∧ a.rule.metric ∈ underload_metrics))).length < 3)
    ∧ determine_server_status alerts ≠ ServerStatus.unknown := by
  have hover : 1 ≤ ((alerts.filter (fun a =>
        decide (a.rule.severity = AlertSeverity.critical))).filter (fun a =>
        decide (a.rule.metric ∈ overload_metrics))).length ↔
      ∃ a ∈ alerts, a.rule.severity = AlertSeverity.critical
        ∧ a.rule.metric ∈ overload_metrics := by
    rw [← List.countP_eq_length_filter, show (1 ≤ (List.countP (fun a =>
      decide (a.rule.metric ∈ overload_metrics)) (alerts.filter (fun a =>
      decide (a.rule.severity = AlertSeverity.critical))))) =
      (0 < (List.countP (fun a => decide (a.rule.metric ∈ overload_metrics))
        (alerts.filter (fun a => decide (a.rule.severity = AlertSeverity.critical)))))
      from rfl, List.countP_pos_iff]
    simp [List.mem_filter, and_assoc]
  have hcount : ((alerts.filter (fun a =>
        decide (a.rule.severity = AlertSeverity.warning))).filter (fun a =>
        decide (a.rule.metric ∈ underload_metrics))).length =
      (alerts.filter (fun a =>
        decide (a.rule.severity = AlertSeverity.warning
          ∧ a.rule.metric ∈ underload_metrics))).length := by
    rw [List.filter_filter]
    congr 1
    apply List.filter_congr
    intro a _
    simp [Bool.and_comm]
  by_cases he : alerts.isEmpty
  · have : alerts = [] := List.isEmpty_iff.mp he
    subst this
    refine ⟨?_, ?_, ?_, ?_⟩ <;> simp [determine_server_status]
  · unfold determine_server_status
    rw [if_neg (by simpa using he)]
    by_cases h1 : 1 ≤ ((alerts.filter (fun a =>
        decide (a.rule.severity = AlertSeverity.critical))).filter (fun a =>
        decide (a.rule.metric ∈ overload_metrics))).length
    · rw [if_pos h1]
      have hex := hover.mp h1
      exact ⟨⟨fun _ => hex, fun _ => rfl⟩,
             ⟨(fun h => nomatch h), fun ⟨hno, _⟩ => absurd hex hno⟩,
             ⟨(fun h => nomatch h), fun ⟨hno, _⟩ => absurd hex hno⟩,
             fun h => nomatch h⟩
    · rw [if_neg h1]
      have hnex : ¬ ∃ a ∈ alerts, a.rule.severity = AlertSeverity.critical
          ∧ a.rule.metric ∈ overload_metrics := fun hx => h1 (hover.mpr hx)
      by_cases h2 : 3 ≤ ((alerts.filter (fun a =>
          decide (a.rule.severity = AlertSeverity.warning))).filter (fun a =>
          decide (a.rule.metric ∈ underload_metrics))).length
      · rw [if_pos h2]
        rw [hcount] at h2
        exact ⟨⟨(fun h => nomatch h), fun hx => absurd hx hnex⟩,
               ⟨fun _ => ⟨hnex, h2⟩, fun _ => rfl⟩,
               ⟨(fun h => nomatch h), fun ⟨_, hlt⟩ => absurd h2 (Nat.not_le.mpr hlt)⟩,
               fun h => nomatch h⟩
      · rw [if_neg h2]
        rw [hcount] at h2
        exact ⟨⟨(fun h => nomatch h), fun hx => absurd hx hnex⟩,
               ⟨(fun h => nomatch h), fun ⟨_, hge⟩ => absurd hge h2⟩,
               ⟨fun _ => ⟨hnex, Nat.lt_of_not_le h2⟩, fun _ => rfl⟩,
               fun h => nomatch h⟩

/-- C6: for a non-empty window the overall status is derived from the full
fired-alert set — `Overloaded` iff some fired alert is `Critical` over an
overload-signal metric; else `Underloaded` iff at least 3 fired `Warning`
alerts are over underload-signal metrics; else `Normal` — and `Unknown` is
never returned; the empty-window call returns `Unknown` with an empty
alert list. -/
theorem c6_overall_status (sys : AlertSystem) (w : Window) (server_name : String)
    (rnd_cpu_ready rnd_disk : List ℚ) :
    (w.isEmpty = false →
      ((analyze_server_status sys w server_name rnd_cpu_ready rnd_disk).1.status
          = ServerStatus.overloaded ↔
        ∃ a ∈ (analyze_server_status sys w server_name rnd_cpu_ready rnd_disk).1.alerts,
          a.rule.severity = AlertSeverity.critical ∧ a.rule.metric ∈ overload_metrics)
      ∧ ((analyze_server_status sys w server_name rnd_cpu_ready rnd_disk).1.status
          = ServerStatus.underloaded ↔
        (¬ ∃ a ∈ (analyze_server_status sys w server_name rnd_cpu_ready rnd_disk).1.alerts,
          a.rule.severity = AlertSeverity.critical ∧ a.rule.metric ∈ overload_metrics)
        ∧ 3 ≤ ((analyze_server_status sys w server_name rnd_cpu_ready rnd_disk).1.alerts.filter
            (fun a => decide (a.rule.severity = AlertSeverity.warning
              ∧ a.rule.metric ∈ underload_metrics))).length)
      ∧ ((analyze_server_status sys w server_name rnd_cpu_ready rnd_disk).1.status
          = ServerStatus.normal ↔
        (¬ ∃ a ∈ (analyze_server_status sys w server_name rnd_cpu_ready rnd_disk).1.alerts,
          a.rule.severity = AlertSeverity.critical ∧ a.rule.metric ∈ overload_metrics)
        ∧ ((analyze_server_status sys w server_name rnd_cpu_ready rnd_disk).1.alerts.filter
            (fun a => decide (a.rule.severity = AlertSeverity.warning
              ∧ a.rule.metric ∈ underload_metrics))).length < 3)
      ∧ (analyze_server_status sys w server_name rnd_cpu_ready rnd_disk).1.status
          ≠ ServerStatus.unknown)
    ∧ (w.isEmpty = true →
      (analyze_server_status sys w server_name rnd_cpu_ready rnd_disk).1
        = ⟨ServerStatus.unknown, []⟩) := by
  constructor
  · intro hne
    unfold analyze_server_status
    rw [if_neg (by rw [hne]; exact Bool.false_ne_true)]
    exact determine_server_status_spec _
  · intro he
    unfold analyze_server_status
    rw [if_pos he]

/-- C6, witness: on the empty window the evaluation returns status
`Unknown` with no alerts. -/
theorem c6_witness :
    (Window.mk []).isEmpty = true
    ∧ (analyze_server_status ⟨default_rules, []⟩ ⟨[]⟩ "srv" [] []).1
        = ⟨ServerStatus.unknown, []⟩ :=
  ⟨rfl, (c6_overall_status ⟨default_rules, []⟩ ⟨[]⟩ "srv" [] []).2 rfl⟩
/-- A rule over a metric that is not a column of the window is skipped by
the rule loop (the `continue` on line 188): it yields no alert. -/
theorem evalRule_none_absent (w : Window) (ts : Option ℚ) (sv : String)
    (r : AlertRule) (h : r.metric ∉ w.names) : evalRule w ts sv r = none := by
  have hcol : w.getCol r.metric = none := by
    unfold Window.getCol
    rw [List.find?_eq_none.mpr ?_]
    · rfl
    · intro c hc
      simp only [decide_eq_true_eq]
      intro hceq
      exact h (List.mem_map.mpr ⟨c, hc, hceq⟩)
  unfold evalRule
  rw [hcol]

/-- A fired alert carries the evaluated rule, and that rule's metric is a
column of the window. -/
theorem evalRule_some_rule (w : Window) (ts : Option ℚ) (sv : String)
    (r : AlertRule) (a : Alert) (h : evalRule w ts sv r = some a) :
    a.rule = r ∧ r.metric ∈ w.names := by
  unfold evalRule at h
  cases hcol : w.getCol r.metric with
  | none =>
    rw [hcol] at h
    exact absurd h (by simp)
  | some s =>
    rw [hcol] at h
    have hmem : r.metric ∈ w.names := by
      unfold Window.getCol at hcol
      cases hf : w.cols.find? (fun c => decide (c.1 = r.metric)) with
      | none =>
        rw [hf] at hcol
        exact absurd hcol (by simp)
      | some c =>
        have hc := List.find?_some hf
        have hcm := List.mem_of_find?_eq_some hf
        simp only [decide_eq_true_eq] at hc
        exact hc ▸ List.mem_map.mpr ⟨c, hcm, rfl⟩
    refine ⟨?_, hmem⟩
    dsimp only at h
    repeat' split at h
    all_goals
      first
        | (obtain rfl := (Option.some.inj h).symm; rfl)
        | exact absurd h (by simp)
/-- C1, amended: the silent skip applies to the window as it stands after
the enrichment step — a rule whose metric is not a column of the
*enriched* window is not evaluated, produces no alert, and has no
influence on the result (removing it changes nothing observable); but
because enrichment synthesizes `cpu_ready_summation` and `disk_latency`
columns with random data when the caller's window lacks them, rules over
those two metrics can fire even though the metric is absent from the
window passed in (see the counterexample). -/
theorem c1_absent_metric_skipped (l1 l2 : List AlertRule) (r : AlertRule)
    (hist : List AlertDict) (w : Window) (server_name : String)
    (rnd_cpu_ready rnd_disk : List ℚ)
    (habs : r.metric ∉ (enrich w rnd_cpu_ready rnd_disk).names) :
    ((analyze_server_status ⟨l1 ++ r :: l2, hist⟩ w server_name rnd_cpu_ready rnd_disk).1
      = (analyze_server_status ⟨l1 ++ l2, hist⟩ w server_name rnd_cpu_ready rnd_disk).1)
    ∧ ((analyze_server_status ⟨l1 ++ r :: l2, hist⟩ w server_name rnd_cpu_ready rnd_disk).2.1.alerts_history
      = (analyze_server_status ⟨l1 ++ l2, hist⟩ w server_name rnd_cpu_ready rnd_disk).2.1.alerts_history)
    ∧ ((analyze_server_status ⟨l1 ++ r :: l2, hist⟩ w server_name rnd_cpu_ready rnd_disk).2.2
      = (analyze_server_status ⟨l1 ++ l2, hist⟩ w server_name rnd_cpu_ready rnd_disk).2.2)
    ∧ ∀ a ∈ (analyze_server_status ⟨l1 ++ r :: l2, hist⟩ w server_name rnd_cpu_ready rnd_disk).1.alerts,
        a.rule.metric ≠ r.metric := by
  by_cases hemp : w.isEmpty
  · refine ⟨?_, ?_, ?_, ?_⟩ <;> (try simp [analyze_server_status, hemp])
  · have hemp1 : ¬ w.isEmpty = true := hemp
    have hfm : ∀ ts, (l1 ++ r :: l2).filterMap
          (evalRule (enrich w rnd_cpu_ready rnd_disk) ts server_name)
        = (l1 ++ l2).filterMap
          (evalRule (enrich w rnd_cpu_ready rnd_disk) ts server_name) := by
      intro ts
      rw [List.filterMap_append, List.filterMap_append,
        List.filterMap_cons_none
          (evalRule_none_absent (enrich w rnd_cpu_ready rnd_disk) ts server_name r habs)]
    have hmem_of : ∀ a ∈ (analyze_server_status ⟨l1 ++ r :: l2, hist⟩ w server_name
        rnd_cpu_ready rnd_disk).1.alerts, a.rule.metric ≠ r.metric := by
      intro a ha heq
      unfold analyze_server_status at ha
      rw [if_neg hemp1] at ha
      obtain ⟨r', hr', heval⟩ := List.mem_filterMap.mp ha
      obtain ⟨harule, hpres⟩ := evalRule_some_rule _ _ _ _ _ heval
      rw [harule] at heq
      exact habs (heq ▸ hpres)
    refine ⟨?_, ?_, ?_, hmem_of⟩ <;>
      (unfold analyze_server_status
       rw [if_neg hemp1, if_neg hemp1]
       try simp only [hfm])

/-- C1, counterexample.  The claim says no rule over a metric absent from
the window can ever fire.  But on a window holding only `timestamp` and
`cpu_usage` columns, `analyze_server_status` synthesizes a random
`cpu_ready_summation` column (here the draw is five values of 12, inside
the source's `uniform(0, 15)` support), and the default `cpu_ready_time`
rule — whose metric `cpu_ready_summation` is *not* a column of the window
passed in — fires, and drives the overall status to `Overloaded`. -/
theorem c1_counterexample :
    "cpu_ready_summation" ∉ (Window.mk [("timestamp", [0, 30, 60, 90, 120]),
        ("cpu_usage", [50, 50, 50, 50, 50])]).names
    ∧ (∃ a ∈ (analyze_server_status ⟨default_rules, []⟩
        ⟨[("timestamp", [0, 30, 60, 90, 120]), ("cpu_usage", [50, 50, 50, 50, 50])]⟩
        "srv" [12, 12, 12, 12, 12] [6, 6, 6, 6, 6]).1.alerts,
        a.rule.metric = "cpu_ready_summation")
    ∧ (analyze_server_status ⟨default_rules, []⟩
        ⟨[("timestamp", [0, 30, 60, 90, 120]), ("cpu_usage", [50, 50, 50, 50, 50])]⟩
        "srv" [12, 12, 12, 12, 12] [6, 6, 6, 6, 6]).1.status
      = ServerStatus.overloaded := by
  have heval : evalRule
      ⟨[("timestamp", [0, 30, 60, 90, 120]), ("cpu_usage", [50, 50, 50, 50, 50]),
        ("cpu_ready_summation", [12, 12, 12, 12, 12]), ("disk_latency", [6, 6, 6, 6, 6])]⟩
      (some 120) "srv"
      ⟨"cpu_ready_time", "cpu_ready_summation", "gt", ⟨none, some 10⟩,
       AlertSeverity.critical,
       "Сумма времени ожидания CPU >10% (в топ-20% пиковых интервалов)", 0.2⟩
      = some ⟨⟨"cpu_ready_time", "cpu_ready_summation", "gt", ⟨none, some 10⟩,
              AlertSeverity.critical,
              "Сумма времени ожидания CPU >10% (в топ-20% пиковых интервалов)", 0.2⟩,
             some 12, some 120, "srv"⟩ := by
    rw [evalRule_gt
      ⟨[("timestamp", [0, 30, 60, 90, 120]), ("cpu_usage", [50, 50, 50, 50, 50]),
        ("cpu_ready_summation", [12, 12, 12, 12, 12]), ("disk_latency", [6, 6, 6, 6, 6])]⟩
      (some 120) "srv"
      ⟨"cpu_ready_time", "cpu_ready_summation", "gt", ⟨none, some 10⟩,
       AlertSeverity.critical,
       "Сумма времени ожидания CPU >10% (в топ-20% пиковых интервалов)", 0.2⟩
      [12, 12, 12, 12, 12] 10 rfl rfl rfl]
    rw [if_pos (by norm_num [pyInt, List.filter])]
    norm_num [pmean, List.filter]
  have h1 : (analyze_server_status ⟨default_rules, []⟩
      ⟨[("timestamp", [0, 30, 60, 90, 120]), ("cpu_usage", [50, 50, 50, 50, 50])]⟩
      "srv" [12, 12, 12, 12, 12] [6, 6, 6, 6, 6]).1
      = ⟨determine_server_status (default_rules.filterMap (evalRule
          ⟨[("timestamp", [0, 30, 60, 90, 120]), ("cpu_usage", [50, 50, 50, 50, 50]),
            ("cpu_ready_summation", [12, 12, 12, 12, 12]), ("disk_latency", [6, 6, 6, 6, 6])]⟩
          (some 120) "srv")),
        default_rules.filterMap (evalRule
          ⟨[("timestamp", [0, 30, 60, 90, 120]), ("cpu_usage", [50, 50, 50, 50, 50]),
            ("cpu_ready_summation", [12, 12, 12, 12, 12]), ("disk_latency", [6, 6, 6, 6, 6])]⟩
          (some 120) "srv")⟩ := by
    unfold analyze_server_status
    rw [if_neg (by decide)]
    rfl
  have hmem : (⟨⟨"cpu_ready_time", "cpu_ready_summation", "gt", ⟨none, some 10⟩,
        AlertSeverity.critical,
        "Сумма времени ожидания CPU >10% (в топ-20% пиковых интервалов)", 0.2⟩,
       some 12, some 120, "srv"⟩ : Alert) ∈ default_rules.filterMap (evalRule
          ⟨[("timestamp", [0, 30, 60, 90, 120]), ("cpu_usage", [50, 50, 50, 50, 50]),
            ("cpu_ready_summation", [12, 12, 12, 12, 12]), ("disk_latency", [6, 6, 6, 6, 6])]⟩
          (some 120) "srv") := by
    refine List.mem_filterMap.mpr ⟨_, ?_, heval⟩
    unfold default_rules
    exact List.mem_cons_of_mem _ (List.mem_cons_of_mem _ (List.mem_cons_self _ _))
  refine ⟨by decide, ?_, ?_⟩
  · rw [h1]
    exact ⟨_, hmem, rfl⟩
  · rw [h1]
    exact (determine_server_status_spec _).1.mpr ⟨_, hmem, rfl, by decide⟩

/-- C1, witness for the amended theorem: a rule over the metric `"foo"`,
absent from the enriched window, can be removed from the rule set without
changing the returned status and alerts. -/
theorem c1_witness :
    "foo" ∉ (enrich ⟨[("timestamp", [0]), ("cpu_usage", [50])]⟩ [1] [1]).names
    ∧ (analyze_server_status
        ⟨[⟨"foo_rule", "foo", "gt", ⟨none, some 1⟩, AlertSeverity.critical, "d", 0.2⟩], []⟩
        ⟨[("timestamp", [0]), ("cpu_usage", [50])]⟩ "srv" [1] [1]).1
      = (analyze_server_status ⟨[], []⟩
        ⟨[("timestamp", [0]), ("cpu_usage", [50])]⟩ "srv" [1] [1]).1 :=
  ⟨by decide,
   (c1_absent_metric_skipped [] []
     ⟨"foo_rule", "foo", "gt", ⟨none, some 1⟩, AlertSeverity.critical, "d", 0.2⟩
     [] ⟨[("timestamp", [0]), ("cpu_usage", [50])]⟩ "srv" [1] [1] (by decide)).1⟩
/-- Column membership is preserved by a column assignment. -/
theorem mem_names_setCol (w : Window) (n : String) (v : List ℚ) (x : String)
    (hx : x ∈ w.names) : x ∈ (w.setCol n v).names := by
  obtain ⟨c, hc, hcx⟩ := List.mem_map.mp hx
  unfold Window.setCol
  split
  · refine List.mem_map.mpr ⟨if c.1 = n then (n, v) else c,
      List.mem_map.mpr ⟨c, hc, rfl⟩, ?_⟩
    by_cases hcn : c.1 = n
    · rw [if_pos hcn, ← hcx, hcn]
    · rw [if_neg hcn]
      exact hcx
  · exact List.mem_map.mpr ⟨c, List.mem_append_left _ hc, hcx⟩

/-- When the window already carries `cpu_ready_summation` and
`disk_latency` columns, the enrichment ignores the random oracles. -/
theorem enrich_oracle_indep (w : Window) (oc od oc' od' : List ℚ)
    (hc : "cpu_ready_summation" ∈ w.names) (hd : "disk_latency" ∈ w.names) :
    enrich w oc od = enrich w oc' od' := by
  have hc1 : "cpu_ready_summation" ∈ (add_network_metric w).names := by
    unfold add_network_metric
    split
    · exact mem_names_setCol _ _ _ _ hc
    · exact hc
  have hd1 : "disk_latency" ∈ (add_network_metric w).names := by
    unfold add_network_metric
    split
    · exact mem_names_setCol _ _ _ _ hd
    · exact hd
  have h2 : ∀ rc, add_cpu_ready (add_network_metric w) rc = add_network_metric w := by
    intro rc
    unfold add_cpu_ready
    rw [if_pos hc1]
  have h3 : ∀ rc rd, add_disk_latency (add_cpu_ready (add_network_metric w) rc) rd
      = add_cpu_ready (add_network_metric w) rc := by
    intro rc rd
    rw [h2]
    unfold add_disk_latency
    rw [if_pos hd1]
  unfold enrich
  rw [h3, h3, h2, h2]

/-- C2, amended: the evaluation result (status and alerts) is a
deterministic function of the rule set, the window and the entity name
*provided* the window already carries the two metric columns that
`analyze_server_status` otherwise synthesizes from random draws
(`cpu_ready_summation`, `disk_latency`); it is independent of the alert
history carried in the `AlertSystem` state and of the random oracles, and
the returned (mutated) window is likewise determined.  The call is *not*
pure: it appends the fired alerts to `alerts_history` and mutates the
caller's window (see the counterexample). -/
theorem c2_deterministic_modulo_randomness (rules : List AlertRule)
    (hist1 hist2 : List AlertDict) (w : Window) (server_name : String)
    (oc od oc' od' : List ℚ)
    (hc : "cpu_ready_summation" ∈ w.names) (hd : "disk_latency" ∈ w.names) :
    ((analyze_server_status ⟨rules, hist1⟩ w server_name oc od).1
      = (analyze_server_status ⟨rules, hist2⟩ w server_name oc' od').1)
    ∧ ((analyze_server_status ⟨rules, hist1⟩ w server_name oc od).2.2
      = (analyze_server_status ⟨rules, hist2⟩ w server_name oc' od').2.2) := by
  have he := enrich_oracle_indep w oc od oc' od' hc hd
  by_cases hemp : w.isEmpty
  · constructor <;> simp [analyze_server_status, hemp]
  · have hemp1 : ¬ w.isEmpty = true := hemp
    unfold analyze_server_status
    rw [if_neg hemp1, if_neg hemp1]
    constructor
    · simp only [he]
    · simp only [he]
/-- C2, counterexample.  The claim asserts evaluation is pure: identical
(window, name, rules) give identical results and nothing is mutated.  On a
one-row window holding only `timestamp` and `cpu_usage`, two calls with
identical window, name and rules — differing only in the random draw the
source takes *inside* the call for the synthesized `cpu_ready_summation`
column (12 versus 2, both inside `uniform(0, 15)`) — return different
alert lists; moreover the call hands back a window enlarged by the
synthesized columns (the source mutates the caller's DataFrame in place)
and a non-empty `alerts_history`: state outside the returned dict. -/
theorem c2_counterexample :
    ((analyze_server_status ⟨default_rules, []⟩
        ⟨[("timestamp", [0]), ("cpu_usage", [50])]⟩ "srv" [12] [6]).1.alerts
      ≠ (analyze_server_status ⟨default_rules, []⟩
        ⟨[("timestamp", [0]), ("cpu_usage", [50])]⟩ "srv" [2] [6]).1.alerts)
    ∧ ((analyze_server_status ⟨default_rules, []⟩
        ⟨[("timestamp", [0]), ("cpu_usage", [50])]⟩ "srv" [12] [6]).2.2
      ≠ ⟨[("timestamp", [0]), ("cpu_usage", [50])]⟩)
    ∧ ((analyze_server_status ⟨default_rules, []⟩
        ⟨[("timestamp", [0]), ("cpu_usage", [50])]⟩ "srv" [12] [6]).2.1.alerts_history
      ≠ []) := by
  have h1 : (analyze_server_status ⟨default_rules, []⟩
      ⟨[("timestamp", [0]), ("cpu_usage", [50])]⟩ "srv" [12] [6]).1
      = ⟨determine_server_status (default_rules.filterMap (evalRule
          ⟨[("timestamp", [0]), ("cpu_usage", [50]), ("cpu_ready_summation", [12]),
            ("disk_latency", [6])]⟩ (some 0) "srv")),
        default_rules.filterMap (evalRule
          ⟨[("timestamp", [0]), ("cpu_usage", [50]), ("cpu_ready_summation", [12]),
            ("disk_latency", [6])]⟩ (some 0) "srv")⟩ := by
    unfold analyze_server_status
    rw [if_neg (by decide)]
    rfl
  have h2 : (analyze_server_status ⟨default_rules, []⟩
      ⟨[("timestamp", [0]), ("cpu_usage", [50])]⟩ "srv" [2] [6]).1
      = ⟨determine_server_status (default_rules.filterMap (evalRule
          ⟨[("timestamp", [0]), ("cpu_usage", [50]), ("cpu_ready_summation", [2]),
            ("disk_latency", [6])]⟩ (some 0) "srv")),
        default_rules.filterMap (evalRule
          ⟨[("timestamp", [0]), ("cpu_usage", [50]), ("cpu_ready_summation", [2]),
            ("disk_latency", [6])]⟩ (some 0) "srv")⟩ := by
    unfold analyze_server_status
    rw [if_neg (by decide)]
    rfl
  have hhist : (analyze_server_status ⟨default_rules, []⟩
      ⟨[("timestamp", [0]), ("cpu_usage", [50])]⟩ "srv" [12] [6]).2.1.alerts_history
      = (default_rules.filterMap (evalRule
          ⟨[("timestamp", [0]), ("cpu_usage", [50]), ("cpu_ready_summation", [12]),
            ("disk_latency", [6])]⟩ (some 0) "srv")).map Alert.to_dict := by
    unfold analyze_server_status
    rw [if_neg (by decide)]
    rfl
  have hevalA : evalRule
      ⟨[("timestamp", [0]), ("cpu_usage", [50]), ("cpu_ready_summation", [12]),
        ("disk_latency", [6])]⟩ (some 0) "srv"
      ⟨"cpu_ready_time", "cpu_ready_summation", "gt", ⟨none, some 10⟩,
       AlertSeverity.critical,
       "Сумма времени ожидания CPU >10% (в топ-20% пиковых интервалов)", 0.2⟩
      = some ⟨⟨"cpu_ready_time", "cpu_ready_summation", "gt", ⟨none, some 10⟩,
              AlertSeverity.critical,
              "Сумма времени ожидания CPU >10% (в топ-20% пиковых интервалов)", 0.2⟩,
             some 12, some 0, "srv"⟩ := by
    rw [evalRule_gt
      ⟨[("timestamp", [0]), ("cpu_usage", [50]), ("cpu_ready_summation", [12]),
        ("disk_latency", [6])]⟩ (some 0) "srv"
      ⟨"cpu_ready_time", "cpu_ready_summation", "gt", ⟨none, some 10⟩,
       AlertSeverity.critical,
       "Сумма времени ожидания CPU >10% (в топ-20% пиковых интервалов)", 0.2⟩
      [12] 10 rfl rfl rfl]
    rw [if_pos (by norm_num [pyInt, List.filter])]
    norm_num [pmean, List.filter]
  have hevalB : evalRule
      ⟨[("timestamp", [0]), ("cpu_usage", [50]), ("cpu_ready_summation", [2]),
        ("disk_latency", [6])]⟩ (some 0) "srv"
      ⟨"cpu_ready_time", "cpu_ready_summation", "gt", ⟨none, some 10⟩,
       AlertSeverity.critical,
       "Сумма времени ожидания CPU >10% (в топ-20% пиковых интервалов)", 0.2⟩
      = some ⟨⟨"cpu_ready_time", "cpu_ready_summation", "gt", ⟨none, some 10⟩,
              AlertSeverity.critical,
              "Сумма времени ожидания CPU >10% (в топ-20% пиковых интервалов)", 0.2⟩,
             none, some 0, "srv"⟩ := by
    rw [evalRule_gt
      ⟨[("timestamp", [0]), ("cpu_usage", [50]), ("cpu_ready_summation", [2]),
        ("disk_latency", [6])]⟩ (some 0) "srv"
      ⟨"cpu_ready_time", "cpu_ready_summation", "gt", ⟨none, some 10⟩,
       AlertSeverity.critical,
       "Сумма времени ожидания CPU >10% (в топ-20% пиковых интервалов)", 0.2⟩
      [2] 10 rfl rfl rfl]
    rw [if_pos (by norm_num [pyInt, List.filter])]
    norm_num [pmean, List.filter]
  have hmemA : (⟨⟨"cpu_ready_time", "cpu_ready_summation", "gt", ⟨none, some 10⟩,
        AlertSeverity.critical,
        "Сумма времени ожидания CPU >10% (в топ-20% пиковых интервалов)", 0.2⟩,
       some 12, some 0, "srv"⟩ : Alert) ∈ default_rules.filterMap (evalRule
          ⟨[("timestamp", [0]), ("cpu_usage", [50]), ("cpu_ready_summation", [12]),
            ("disk_latency", [6])]⟩ (some 0) "srv") := by
    refine List.mem_filterMap.mpr ⟨_, ?_, hevalA⟩
    unfold default_rules
    exact List.mem_cons_of_mem _ (List.mem_cons_of_mem _ (List.mem_cons_self _ _))
  have hnotB : (⟨⟨"cpu_ready_time", "cpu_ready_summation", "gt", ⟨none, some 10⟩,
        AlertSeverity.critical,
        "Сумма времени ожидания CPU >10% (в топ-20% пиковых интервалов)", 0.2⟩,
       some 12, some 0, "srv"⟩ : Alert) ∉ default_rules.filterMap (evalRule
          ⟨[("timestamp", [0]), ("cpu_usage", [50]), ("cpu_ready_summation", [2]),
            ("disk_latency", [6])]⟩ (some 0) "srv") := by
    intro hm
    obtain ⟨r', hr', hev⟩ := List.mem_filterMap.mp hm
    have har := (evalRule_some_rule _ _ _ _ _ hev).1
    subst har
    have hev' : evalRule
        ⟨[("timestamp", [0]), ("cpu_usage", [50]), ("cpu_ready_summation", [2]),
          ("disk_latency", [6])]⟩ (some 0) "srv"
        ⟨"cpu_ready_time", "cpu_ready_summation", "gt", ⟨none, some 10⟩,
         AlertSeverity.critical,
         "Сумма времени ожидания CPU >10% (в топ-20% пиковых интервалов)", 0.2⟩
        = some ⟨⟨"cpu_ready_time", "cpu_ready_summation", "gt", ⟨none, some 10⟩,
                AlertSeverity.critical,
                "Сумма времени ожидания CPU >10% (в топ-20% пиковых интервалов)", 0.2⟩,
               some 12, some 0, "srv"⟩ := hev
    rw [hevalB] at hev'
    have hv := congrArg Alert.value (Option.some.inj hev')
    exact absurd hv (by decide)
  refine ⟨?_, by decide, ?_⟩
  · intro heq
    rw [h1, h2] at heq
    have heq' : default_rules.filterMap (evalRule
          ⟨[("timestamp", [0]), ("cpu_usage", [50]), ("cpu_ready_summation", [12]),
            ("disk_latency", [6])]⟩ (some 0) "srv")
        = default_rules.filterMap (evalRule
          ⟨[("timestamp", [0]), ("cpu_usage", [50]), ("cpu_ready_summation", [2]),
            ("disk_latency", [6])]⟩ (some 0) "srv") := heq
    exact hnotB (heq' ▸ hmemA)
  · intro hh
    rw [hhist] at hh
    have hnil := List.map_eq_nil_iff.mp hh
    rw [hnil] at hmemA
    exact absurd hmemA (List.not_mem_nil _)

/-- C2, witness for the amended theorem: with `cpu_ready_summation` and
`disk_latency` already present in the window, two calls with different
alert histories and different random oracles return the same status,
alerts and mutated window. -/
theorem c2_witness :
    "cpu_ready_summation" ∈ (Window.mk [("timestamp", [0]), ("cpu_usage", [50]),
        ("cpu_ready_summation", [3]), ("disk_latency", [7])]).names
    ∧ (analyze_server_status ⟨default_rules, []⟩
        ⟨[("timestamp", [0]), ("cpu_usage", [50]),
          ("cpu_ready_summation", [3]), ("disk_latency", [7])]⟩ "srv" [12] [6]).1
      = (analyze_server_status
          ⟨default_rules, [⟨"s0", "r0", none, ⟨none, none⟩, AlertSeverity.info, none⟩]⟩
          ⟨[("timestamp", [0]), ("cpu_usage", [50]),
            ("cpu_ready_summation", [3]), ("disk_latency", [7])]⟩ "srv" [2] [9]).1 :=
  ⟨by decide,
   (c2_deterministic_modulo_randomness default_rules []
     [⟨"s0", "r0", none, ⟨none, none⟩, AlertSeverity.info, none⟩]
     ⟨[("timestamp", [0]), ("cpu_usage", [50]),
       ("cpu_ready_summation", [3]), ("disk_latency", [7])]⟩ "srv"
     [12] [6] [2] [9] (by decide) (by decide)).1⟩
/-- Round-half-to-even is monotone. -/
theorem roundHalfEven_mono {x y : ℚ} (h : x ≤ y) :
    roundHalfEven x ≤ roundHalfEven y := by
  by_cases hff : ⌊x⌋ = ⌊y⌋
  · unfold roundHalfEven
    rw [← hff]
    have hxy : x - (⌊x⌋ : ℚ) ≤ y - (⌊x⌋ : ℚ) := by linarith
    split_ifs <;> first | omega | linarith
  · have hlt : ⌊x⌋ < ⌊y⌋ := lt_of_le_of_ne (Int.floor_mono h) hff
    have hx : roundHalfEven x ≤ ⌊x⌋ + 1 := by
      unfold roundHalfEven
      split_ifs <;> omega
    have hy : ⌊y⌋ ≤ roundHalfEven y := by
      unfold roundHalfEven
      split_ifs <;> omega
    omega

/-- Rounding to two decimals is monotone. -/
theorem round2_mono {x y : ℚ} (h : x ≤ y) : round2 x ≤ round2 y := by
  unfold round2
  have h100 : x * 100 ≤ y * 100 := by linarith
  have := roundHalfEven_mono h100
  have hc : ((roundHalfEven (x * 100) : ℚ)) ≤ ((roundHalfEven (y * 100) : ℚ)) := by
    exact_mod_cast this
  linarith

/-- C9: holding the range and expected interval fixed, inserting one more
fact row whose timestamp lies inside `[rangeStart, rangeEnd]` never
decreases `completeness_percentage` (the expected-point count is
unchanged, the in-range count can only grow, and the final
round-half-even to two decimals is monotone). -/
theorem c9_completeness_monotone (db : List FactRow) (row : FactRow)
    (vm metric : String) (start_date end_date : ℚ) (itv : ℤ)
    (hitv : 1 ≤ itv) (hin1 : start_date ≤ row.timestamp)
    (hin2 : row.timestamp ≤ end_date) :
    (calculate_data_completeness db vm metric start_date end_date itv).completeness_percentage
      ≤ (calculate_data_completeness (row :: db) vm metric start_date end_date
          itv).completeness_percentage := by
  unfold calculate_data_completeness
  dsimp only
  have hcount : (db.filter (fun r =>
      decide (r.vm = vm ∧ r.metric = metric ∧
              start_date ≤ r.timestamp ∧ r.timestamp ≤ end_date))).length
      ≤ ((row :: db).filter (fun r =>
      decide (r.vm = vm ∧ r.metric = metric ∧
              start_date ≤ r.timestamp ∧ r.timestamp ≤ end_date))).length := by
    rw [List.filter_cons]
    split
    · simp
    · exact le_refl _
  apply round2_mono
  by_cases hE : 0 < pyInt ((end_date - start_date) / (itv : ℚ)) + 1
  · rw [if_pos hE, if_pos hE]
    have hE' : (0 : ℚ) < ((pyInt ((end_date - start_date) / (itv : ℚ)) + 1 : ℤ) : ℚ) := by
      exact_mod_cast hE
    have hc' : ((db.filter (fun r =>
        decide (r.vm = vm ∧ r.metric = metric ∧
                start_date ≤ r.timestamp ∧ r.timestamp ≤ end_date))).length : ℚ)
        ≤ (((row :: db).filter (fun r =>
        decide (r.vm = vm ∧ r.metric = metric ∧
                start_date ≤ r.timestamp ∧ r.timestamp ≤ end_date))).length : ℚ) := by
      exact_mod_cast hcount
    gcongr
  · rw [if_neg hE, if_neg hE]

/-- C9, witness: at a 30-minute interval over the range [0, 10], adding
one in-range sample for the queried series raises the percentage (from 0
to 100). -/
theorem c9_witness :
    ((1 : ℤ) ≤ 30) ∧ ((0 : ℚ) ≤ 5) ∧ ((5 : ℚ) ≤ 10)
    ∧ (calculate_data_completeness [] "vm1" "cpu_usage" 0 10 30).completeness_percentage
      ≤ (calculate_data_completeness [⟨"vm1", "cpu_usage", 5, 42⟩] "vm1" "cpu_usage"
          0 10 30).completeness_percentage :=
  ⟨by norm_num, by norm_num, by norm_num,
   c9_completeness_monotone [] ⟨"vm1", "cpu_usage", 5, 42⟩ "vm1" "cpu_usage" 0 10 30
     (by norm_num) (by norm_num) (by norm_num)⟩
